import Mathlib

/-!
Verification of the Medicaffe medication-tracking application core.

This file shallowly embeds the persistence layer (`src/utils/storage.js`,
provided as `src/unnamed/part_002`), the application state manager
(`src/context/AppContext.js`, provided as `src/unnamed/part_003`) and the
AI-service pipeline (`src/utils/aiService.js`, bundled after the Input
component in `src/src/components/Input.js`) as pure Lean functions, and
proves the testable properties stated in the design document about them.

External effects are modelled as explicit oracle parameters:
* `AsyncStorage.setItem` may fail; its outcome is a `Bool` argument
  (`setItemOk`), since `storeData` catches the exception and turns it into
  a returned success flag.
* `Date.now()` is a `Nat` argument (`nowMs`); `new Date().toISOString()`
  is a `String` argument (`nowIso`).
* `JSON.parse` is an external builtin; it is modelled as an oracle
  `parse : String -> Option A` where `none` models a parse exception.
* The text generator (`callGeminiAPI`) is an oracle
  `gen : String -> Except String String`; `Except.error` models a thrown
  network/API error.
-/

/-- A stored medication record, as created by `addMedication` in
`storage.js`.  Fields the JS object always carries after creation;
`updatedAt` is absent until the first update. -/
structure Medication where
  id : String
  name : String
  dosage : String := ""
  unit : String := ""
  form : String := ""
  frequency : String := ""
  isActive : Bool := true
  createdAt : String := ""
  updatedAt : Option String := none
deriving DecidableEq, Repr

/-- Caller-supplied medication data passed to `addMedication`.  The JS
spread `{...medication, id, createdAt, isActive: true}` overrides any
caller-supplied `id`, `createdAt` and `isActive`, so those fields are
carried here only to show they are ignored. -/
structure MedInput where
  name : String
  dosage : String := ""
  unit : String := ""
  form : String := ""
  frequency : String := ""
  id : Option String := none
  createdAt : Option String := none
  isActive : Option Bool := none
deriving DecidableEq, Repr

/-- Partial update object passed to `updateMedication`; `none` fields are
absent from the JS `updates` object and leave the stored value intact
under the spread `{...medications[index], ...updates, updatedAt}`. -/
structure MedUpdates where
  name : Option String := none
  dosage : Option String := none
  unit : Option String := none
  form : Option String := none
  frequency : Option String := none
  isActive : Option Bool := none
deriving DecidableEq, Repr

/-- `storeData(key, value)` from `storage.js`: JSON-stringifies and calls
`AsyncStorage.setItem`, catching any error.  It never throws; it returns
`true` exactly when the underlying `setItem` succeeded.  The serialized
key/value pair plays no further role, so the model keeps only the
oracle outcome. -/
def storeData (setItemOk : Bool) : Bool :=
  setItemOk

/-- `saveMedications(medications)` from `storage.js`: persists the list via
`storeData`.  Returns the success flag together with the list that is now
durably stored (the new list on success, the previous one on failure). -/
def saveMedications (setItemOk : Bool) (newList persisted : List Medication) :
    Bool × List Medication :=
  if storeData setItemOk then (true, newList) else (false, persisted)

/-- `addMedication(medication)` from `storage.js`: reads the stored list,
builds the new record with `id := Date.now().toString()`,
`createdAt := new Date().toISOString()` and `isActive := true` (overriding
any caller-supplied values), pushes it and saves.  The save result is
ignored; the new record is returned unconditionally (the function never
throws).  Result: (returned record, durably stored list). -/
def addMedicationToStorage (setItemOk : Bool) (nowMs : Nat) (nowIso : String)
    (input : MedInput) (persisted : List Medication) :
    Medication × List Medication :=
  let newMed : Medication :=
    { id := toString nowMs
      name := input.name
      dosage := input.dosage
      unit := input.unit
      form := input.form
      frequency := input.frequency
      isActive := true
      createdAt := nowIso
      updatedAt := none }
  let saved := saveMedications setItemOk (persisted ++ [newMed]) persisted
  (newMed, saved.2)

/-- The merge `{...medications[index], ...updates, updatedAt}` performed by
`updateMedication` on the matched record. -/
def applyUpdates (nowIso : String) (u : MedUpdates) (m : Medication) :
    Medication :=
  { id := m.id
    name := u.name.getD m.name
    dosage := u.dosage.getD m.dosage
    unit := u.unit.getD m.unit
    form := u.form.getD m.form
    frequency := u.frequency.getD m.frequency
    isActive := u.isActive.getD m.isActive
    createdAt := m.createdAt
    updatedAt := some nowIso }

/-- The `findIndex`-and-assign step of `updateMedication`: replaces the
first record whose `id` matches (JS `findIndex` stops at the first hit)
and returns the updated record with the updated list, or `none` when no
record matches. -/
def updateMedList (nowIso targetId : String) (u : MedUpdates) :
    List Medication → Option (Medication × List Medication)
  | [] => none
  | m :: rest =>
    if m.id = targetId then
      let merged := applyUpdates nowIso u m
      some (merged, merged :: rest)
    else
      match updateMedList nowIso targetId u rest with
      | some (upd, rest') => some (upd, m :: rest')
      | none => none

/-- `updateMedication(id, updates)` from `storage.js`.  On a hit it saves
the updated list and returns the updated record; on a miss it returns
`null` without calling `saveMedications`.  Result components:
(returned record or `none`, durably stored list, whether a save call
was issued). -/
def updateMedicationInStorage (setItemOk : Bool) (nowIso targetId : String)
    (u : MedUpdates) (persisted : List Medication) :
    Option Medication × List Medication × Bool :=
  match updateMedList nowIso targetId u persisted with
  | some (upd, newList) =>
    let saved := saveMedications setItemOk newList persisted
    (some upd, saved.2, true)
  | none => (none, persisted, false)

/-- `deleteMedication(id)` from `storage.js`: filters out every record
whose `id` strictly equals the argument, saves the filtered list (result
ignored) and returns `true` unconditionally.  Result:
(returned flag, durably stored list). -/
def deleteMedicationFromStorage (setItemOk : Bool) (targetId : String)
    (persisted : List Medication) : Bool × List Medication :=
  let filtered := persisted.filter (fun m => m.id != targetId)
  let saved := saveMedications setItemOk filtered persisted
  (true, saved.2)

/-- Theme mode kept in app settings: `'light' | 'dark' | 'system'`. -/
inductive ThemeMode where
  | light
  | dark
  | system
deriving DecidableEq, Repr

/-- The OS-reported colour scheme (`useColorScheme()`). -/
inductive ColorScheme where
  | light
  | dark
deriving DecidableEq, Repr

/-- `isDarkMode` from `AppContext.js`: under `'system'` the OS scheme
decides; otherwise the mode itself decides. -/
def isDarkMode (mode : ThemeMode) (sys : ColorScheme) : Bool :=
  match mode with
  | ThemeMode.system => sys == ColorScheme.dark
  | m => m == ThemeMode.dark

/-- `toggleTheme` from `AppContext.js`: the next mode is
`isDarkMode ? 'light' : 'dark'`. -/
def toggleTheme (mode : ThemeMode) (sys : ColorScheme) : ThemeMode :=
  if isDarkMode mode sys then ThemeMode.light else ThemeMode.dark

/-- C8: for every id matching no stored medication and every partial-update
object, `updateMedication` returns the no-op failure indicator `null`, the
stored list is exactly unchanged, and no save call is issued. -/
theorem updateMedicationMissingIdNoop (setItemOk : Bool)
    (nowIso targetId : String) (u : MedUpdates) (persisted : List Medication)
    (h : ∀ m ∈ persisted, m.id ≠ targetId) :
    updateMedicationInStorage setItemOk nowIso targetId u persisted =
      (none, persisted, false) := by
  have hnone : updateMedList nowIso targetId u persisted = none := by
    induction persisted with
    | nil => rfl
    | cons m rest ih =>
      have hm : m.id ≠ targetId := h m (List.mem_cons_self m rest)
      have hrest : ∀ x ∈ rest, x.id ≠ targetId := fun x hx =>
        h x (List.mem_cons_of_mem m hx)
      simp only [updateMedList, if_neg hm, ih hrest]
  simp only [updateMedicationInStorage, hnone]

/-- Sample medication records used by concrete witnesses. -/
def medA : Medication :=
  { id := "100", name := "Amoxicillin", dosage := "500", unit := "mg",
    form := "capsule", frequency := "twice daily", isActive := true,
    createdAt := "2024-01-01T00:00:00.000Z", updatedAt := none }

/-- A second sample record with a distinct id. -/
def medB : Medication :=
  { id := "200", name := "Tylenol", dosage := "500", unit := "mg",
    form := "tablet", frequency := "as needed", isActive := false,
    createdAt := "2024-01-02T00:00:00.000Z", updatedAt := none }

/-- Witness for C8 at a concrete store: id "999" matches neither stored
record, so the update is a no-op. -/
theorem updateMedicationMissingIdNoopWitness :
    (∀ m ∈ [medA, medB], m.id ≠ "999") ∧
      updateMedicationInStorage true "2024-03-01T00:00:00.000Z" "999"
          { name := some "Renamed" } [medA, medB] =
        (none, [medA, medB], false) := by
  refine ⟨by decide, ?_⟩
  exact updateMedicationMissingIdNoop true "2024-03-01T00:00:00.000Z" "999"
    { name := some "Renamed" } [medA, medB] (by decide)

/-- C10: `deleteMedication` always resolves with `true`; when the
underlying `setItem` succeeds, the stored list afterwards is the previous
list with exactly the matching-id entries removed: it is a sublist of the
original (order preserved), contains no entry with the target id, retains
every entry with a different id, and deleting an id present on no entry
leaves the list exactly unchanged. -/
theorem deleteMedicationFilters (setItemOk : Bool) (targetId : String)
    (persisted : List Medication) :
    (deleteMedicationFromStorage setItemOk targetId persisted).1 = true ∧
    (setItemOk = true →
      (deleteMedicationFromStorage setItemOk targetId persisted).2 =
        persisted.filter (fun m => m.id != targetId) ∧
      List.Sublist
        (deleteMedicationFromStorage setItemOk targetId persisted).2
        persisted ∧
      (∀ m ∈ (deleteMedicationFromStorage setItemOk targetId persisted).2,
        m.id ≠ targetId) ∧
      (∀ m ∈ persisted, m.id ≠ targetId →
        m ∈ (deleteMedicationFromStorage setItemOk targetId persisted).2) ∧
      ((∀ m ∈ persisted, m.id ≠ targetId) →
        (deleteMedicationFromStorage setItemOk targetId persisted).2 =
          persisted)) := by
  constructor
  · rfl
  · intro hok
    subst hok
    have hres : (deleteMedicationFromStorage true targetId persisted).2 =
        persisted.filter (fun m => m.id != targetId) := rfl
    refine ⟨hres, ?_, ?_, ?_, ?_⟩
    · rw [hres]; exact List.filter_sublist persisted
    · intro m hm
      rw [hres] at hm
      have := (List.mem_filter.mp hm).2
      exact bne_iff_ne.mp this
    · intro m hm hne
      rw [hres]
      exact List.mem_filter.mpr ⟨hm, bne_iff_ne.mpr hne⟩
    · intro hall
      rw [hres]
      apply List.filter_eq_self.mpr
      intro m hm
      exact bne_iff_ne.mpr (hall m hm)

/-- Witness for C10 at a concrete store: deleting id "100" from
[medA, medB] returns `true` and keeps exactly medB; the inner hypotheses
are discharged at `setItemOk = true` and id-free membership facts. -/
theorem deleteMedicationFiltersWitness :
    (deleteMedicationFromStorage true "100" [medA, medB]).1 = true ∧
      (deleteMedicationFromStorage true "100" [medA, medB]).2 =
        [medA, medB].filter (fun m => m.id != "100") := by
  have h := deleteMedicationFilters true "100" [medA, medB]
  exact ⟨h.1, (h.2 rfl).1⟩

/-- C9: from mode `system` with OS scheme `dark`, `toggleTheme` yields
`light`; from `light` it yields `dark` under every OS scheme; and no
invocation ever yields `system`. -/
theorem toggleThemeTransitions :
    toggleTheme ThemeMode.system ColorScheme.dark = ThemeMode.light ∧
    (∀ s, toggleTheme ThemeMode.light s = ThemeMode.dark) ∧
    (∀ m s, toggleTheme m s ≠ ThemeMode.system) := by
  refine ⟨rfl, fun s => ?_, fun m s => ?_⟩
  · cases s <;> rfl
  · cases m <;> cases s <;> decide

/-- Case-insensitive substring test used throughout the mock generator:
JS `prompt.toLowerCase().includes(pat)` with an already-lowercase `pat`.
`hasInfix pat cs` holds when `pat` occurs contiguously in `cs`. -/
def hasInfix (pat : List Char) : List Char → Bool
  | [] => pat.isEmpty
  | c :: rest => pat.isPrefixOf (c :: rest) || hasInfix pat rest

/-- `prompt.toLowerCase().includes(pat)` on the character sequence of the
prompt (ASCII lower-casing, as JS performs on these prompts). -/
def promptHasSub (prompt pat : String) : Bool :=
  hasInfix pat.toList (prompt.toList.map Char.toLower)

/-- One entry of the mock generator's `interactions` array. -/
structure InteractionRecord where
  medications : List String
  severity : String
  description : String
  recommendation : String
deriving DecidableEq, Repr

/-- The Aspirin/Ibuprofen record pushed by `getMockInteractionResponse`. -/
def aspirinIbuprofenRecord : InteractionRecord :=
  { medications := ["Aspirin", "Ibuprofen"]
    severity := "moderate"
    description := "Both medications are NSAIDs and taking them together may increase the risk of gastrointestinal bleeding and reduce the cardioprotective effect of aspirin."
    recommendation := "Avoid taking both medications at the same time. If you need both, consult your doctor about proper spacing. Consider using acetaminophen as an alternative pain reliever." }

/-- The Warfarin/NSAID record; the partner is Aspirin when the prompt
mentions aspirin, otherwise Ibuprofen. -/
def warfarinNsaidRecord (hasAspirin : Bool) : InteractionRecord :=
  { medications := ["Warfarin", if hasAspirin then "Aspirin" else "Ibuprofen"]
    severity := "severe"
    description := "Combining blood thinners with NSAIDs significantly increases the risk of serious bleeding, including internal bleeding."
    recommendation := "This combination should be avoided unless specifically prescribed by your doctor. Seek immediate medical attention if you experience unusual bleeding, bruising, or dark stools." }

/-- The Lisinopril/Ibuprofen record. -/
def lisinoprilIbuprofenRecord : InteractionRecord :=
  { medications := ["Lisinopril", "Ibuprofen"]
    severity := "moderate"
    description := "NSAIDs like ibuprofen may reduce the blood pressure-lowering effect of ACE inhibitors like lisinopril and may increase the risk of kidney problems."
    recommendation := "Monitor your blood pressure regularly. Consider using acetaminophen instead of ibuprofen for pain relief. Stay well hydrated." }

/-- The Metformin/Ibuprofen record. -/
def metforminIbuprofenRecord : InteractionRecord :=
  { medications := ["Metformin", "Ibuprofen"]
    severity := "mild"
    description := "Occasional use of ibuprofen with metformin is generally safe, but regular use may affect kidney function, which is important for metformin clearance."
    recommendation := "Occasional use is typically fine. For chronic pain management, discuss alternatives with your healthcare provider." }

/-- The sentinel record returned when no interaction matched. -/
def noInteractionsFoundRecord : InteractionRecord :=
  { medications := ["All checked medications"]
    severity := "none"
    description := "No significant interactions were found between the medications you\x27re taking."
    recommendation := "Continue taking your medications as prescribed. Always inform your healthcare provider about all medications you take." }

/-- The four conditional pushes of `getMockInteractionResponse`, in source
order, as functions of the five drug-name flags. -/
def mockInteractionRecords (a i w l m : Bool) : List InteractionRecord :=
  (if a && i then [aspirinIbuprofenRecord] else []) ++
  (if w && (a || i) then [warfarinNsaidRecord a] else []) ++
  (if l && i then [lisinoprilIbuprofenRecord] else []) ++
  (if m && i then [metforminIbuprofenRecord] else [])

/-- The structured object that `getMockInteractionResponse` serializes.
The source wraps this object in `JSON.stringify`; since the pipeline
immediately re-parses it, the model works with the object itself. -/
structure MockInteractionResult where
  hasInteractions : Bool
  interactions : List InteractionRecord
  summary : String
deriving DecidableEq, Repr

/-- The summary string used when at least one interaction matched. -/
def foundSummary (n : Nat) : String :=
  "Found " ++ toString n ++ " potential interaction(s) between your medications. Please review the details and consult your healthcare provider if you have concerns."

/-- The summary string used when no interaction matched. -/
def noneSummary : String :=
  "No significant drug interactions were detected between your current medications. Continue taking them as prescribed."

/-- The final object assembled by `getMockInteractionResponse` from the
accumulated record list: `hasInteractions` is the non-emptiness of the
list, an empty list is replaced by the single severity-"none" sentinel,
and the summary follows the same non-emptiness test. -/
def mockFlagsResult (a i w l m : Bool) : MockInteractionResult :=
  let recs := mockInteractionRecords a i w l m
  { hasInteractions := decide (recs.length > 0)
    interactions := if recs.length > 0 then recs else [noInteractionsFoundRecord]
    summary := if recs.length > 0 then foundSummary recs.length else noneSummary }

/-- `getMockInteractionResponse(prompt)` from the AI service, at the level
of the structured object (the `JSON.stringify` wrapper is dropped because
the caller re-parses it immediately): testing the lowered prompt for the
five known drug-name substrings and assembling the canned result. -/
def getMockInteractionResponse (prompt : String) : MockInteractionResult :=
  mockFlagsResult (promptHasSub prompt "aspirin") (promptHasSub prompt "ibuprofen")
    (promptHasSub prompt "warfarin") (promptHasSub prompt "lisinopril")
    (promptHasSub prompt "metformin")

/-- C5: whenever the generated prompt contains "aspirin" and "ibuprofen"
case-insensitively, the mock interaction result contains exactly one
record whose severity is "moderate" and whose medications are
["Aspirin", "Ibuprofen"]. -/
theorem mockAspirinIbuprofenModerate (prompt : String)
    (ha : promptHasSub prompt "aspirin" = true)
    (hi : promptHasSub prompt "ibuprofen" = true) :
    ((getMockInteractionResponse prompt).interactions.countP
      (fun r => r.severity == "moderate" &&
        r.medications == ["Aspirin", "Ibuprofen"])) = 1 := by
  unfold getMockInteractionResponse
  rw [ha, hi]
  have key : ∀ w l m : Bool,
      ((mockFlagsResult true true w l m).interactions.countP
        (fun r => r.severity == "moderate" &&
          r.medications == ["Aspirin", "Ibuprofen"])) = 1 := by
    intro w l m
    cases w <;> cases l <;> cases m <;> decide
  exact key _ _ _

/-- Witness for C5: a concrete prompt naming Aspirin and Ibuprofen. -/
theorem mockAspirinIbuprofenModerateWitness :
    promptHasSub "Medications: Aspirin (100 mg), Ibuprofen (200 mg)" "aspirin" = true ∧
    promptHasSub "Medications: Aspirin (100 mg), Ibuprofen (200 mg)" "ibuprofen" = true ∧
    ((getMockInteractionResponse
        "Medications: Aspirin (100 mg), Ibuprofen (200 mg)").interactions.countP
      (fun r => r.severity == "moderate" &&
        r.medications == ["Aspirin", "Ibuprofen"])) = 1 := by
  refine ⟨by decide, by decide, ?_⟩
  exact mockAspirinIbuprofenModerate _ (by decide) (by decide)

/-- C6: when the prompt contains none of the five known drug-name
substrings, the mock result carries exactly the single severity-"none"
sentinel record and its `hasInteractions` flag is `false`. -/
theorem mockNoKnownDrugsSentinel (prompt : String)
    (ha : promptHasSub prompt "aspirin" = false)
    (hi : promptHasSub prompt "ibuprofen" = false)
    (hw : promptHasSub prompt "warfarin" = false)
    (hl : promptHasSub prompt "lisinopril" = false)
    (hm : promptHasSub prompt "metformin" = false) :
    (getMockInteractionResponse prompt).interactions =
      [noInteractionsFoundRecord] ∧
    noInteractionsFoundRecord.severity = "none" ∧
    (getMockInteractionResponse prompt).hasInteractions = false := by
  unfold getMockInteractionResponse
  rw [ha, hi, hw, hl, hm]
  exact ⟨rfl, rfl, rfl⟩

/-- Witness for C6: a concrete prompt naming none of the five drugs. -/
theorem mockNoKnownDrugsSentinelWitness :
    promptHasSub "Medications: Tylenol (500 mg), Amoxicillin (250 mg)" "aspirin" = false ∧
    (getMockInteractionResponse
        "Medications: Tylenol (500 mg), Amoxicillin (250 mg)").interactions =
      [noInteractionsFoundRecord] ∧
    (getMockInteractionResponse
        "Medications: Tylenol (500 mg), Amoxicillin (250 mg)").hasInteractions = false := by
  refine ⟨by decide, ?_⟩
  have h := mockNoKnownDrugsSentinel
    "Medications: Tylenol (500 mg), Amoxicillin (250 mg)"
    (by decide) (by decide) (by decide) (by decide) (by decide)
  exact ⟨h.1, h.2.2⟩

/-- Counterexample for C7 as stated: `addMedication` derives the new id
from `Date.now().toString()` with no freshness check, so when the clock
value's string equals the id of an already-stored medication (here both
are "100": medA was created at millisecond 100 and the add happens in the
same millisecond), the produced id is NOT previously unseen. -/
theorem addMedicationIdCollision :
    (addMedicationToStorage true 100 "2024-06-01T00:00:00.000Z"
        { name := "New drug" } [medA]).1.id = "100" ∧
    "100" ∈ [medA].map Medication.id := by
  decide

/-- C7 (amended): `addMedication` sets `id := Date.now().toString()`,
`isActive := true` and `createdAt` unconditionally, overriding any
caller-supplied values; the id is unique among the stored medications
whenever the clock string differs from every stored id (in particular
whenever the call happens in a later millisecond than every earlier add).
On persistence success the record is appended to the stored list. -/
theorem addMedicationFreshIdAmended (setItemOk : Bool) (nowMs : Nat)
    (nowIso : String) (input : MedInput) (persisted : List Medication)
    (h : toString nowMs ∉ persisted.map Medication.id) :
    (addMedicationToStorage setItemOk nowMs nowIso input persisted).1.id ∉
      persisted.map Medication.id ∧
    (addMedicationToStorage setItemOk nowMs nowIso input persisted).1.isActive
      = true ∧
    (addMedicationToStorage setItemOk nowMs nowIso input persisted).1.createdAt
      = nowIso ∧
    (setItemOk = true →
      (addMedicationToStorage setItemOk nowMs nowIso input persisted).2 =
        persisted ++
          [(addMedicationToStorage setItemOk nowMs nowIso input persisted).1]) := by
  refine ⟨h, rfl, rfl, fun hok => ?_⟩
  subst hok
  rfl

/-- Witness for C7 (amended) at a concrete clock value 300 whose string
differs from the stored ids "100" and "200". -/
theorem addMedicationFreshIdAmendedWitness :
    (toString 300 ∉ [medA, medB].map Medication.id) ∧
    ((addMedicationToStorage true 300 "2024-06-01T00:00:00.000Z"
        { name := "Lipitor" } [medA, medB]).1.id ∉
      [medA, medB].map Medication.id ∧
    (addMedicationToStorage true 300 "2024-06-01T00:00:00.000Z"
        { name := "Lipitor" } [medA, medB]).1.isActive = true ∧
    (addMedicationToStorage true 300 "2024-06-01T00:00:00.000Z"
        { name := "Lipitor" } [medA, medB]).1.createdAt
      = "2024-06-01T00:00:00.000Z" ∧
    (true = true →
      (addMedicationToStorage true 300 "2024-06-01T00:00:00.000Z"
          { name := "Lipitor" } [medA, medB]).2 =
        [medA, medB] ++
          [(addMedicationToStorage true 300 "2024-06-01T00:00:00.000Z"
              { name := "Lipitor" } [medA, medB]).1])) := by
  refine ⟨by decide, ?_⟩
  exact addMedicationFreshIdAmended true 300 "2024-06-01T00:00:00.000Z"
    { name := "Lipitor" } [medA, medB] (by decide)

/-- The in-memory slice of the Application State Manager relevant to the
medication write-methods: the `medications` React state and the
process-wide `error` field. -/
structure AppState where
  medications : List Medication
  error : Option String
deriving DecidableEq, Repr

/-- `addMedication` of `AppContext.js`.  The context method wraps the
storage call in try/catch; the catch branch would set
`error := "Failed to add medication"` and return `null`, but
`addMedicationToStorage` never throws (its own `storeData` catches the
`setItem` failure and turns it into an ignored `false`), so only the
success path is reachable: the in-memory list is extended and the new
record is returned, regardless of the persistence outcome.  Result
components: (returned value, durably stored list, new in-memory state). -/
def appAddMedication (setItemOk : Bool) (nowMs : Nat) (nowIso : String)
    (input : MedInput) (persisted : List Medication) (st : AppState) :
    Option Medication × List Medication × AppState :=
  let r := addMedicationToStorage setItemOk nowMs nowIso input persisted
  (some r.1, r.2,
    { st with medications := st.medications ++ [r.1] })

/-- The medication record produced by the C3 failing run. -/
def c3NewMed : Medication :=
  { id := "5", name := "Aspirin", dosage := "", unit := "", form := "",
    frequency := "", isActive := true,
    createdAt := "2024-05-01T00:00:00.000Z", updatedAt := none }

/-- C3 evaluated at the failing input: `addMedication({name:"Aspirin"})`
while `AsyncStorage.setItem` fails (`setItemOk := false`) starting from
empty stores.  The durable list stays `[]`, yet the call returns the new
record as a success (`some`), leaves the error flag unset (`none`), and
mutates the in-memory list to `[c3NewMed]` — the opposite of the claimed
"error flag set, failure indicator, in-memory state unchanged". -/
theorem addMedicationStorageFailureBehavior :
    appAddMedication false 5 "2024-05-01T00:00:00.000Z"
        { name := "Aspirin" } [] { medications := [], error := none } =
      (some c3NewMed, [],
        { medications := [c3NewMed], error := none }) := by
  decide

/-- The medication-name list interpolated into the interaction prompt:
JS `medications.map(med => `${med.name} (${med.dosage} ${med.unit})`).join(", ")`. -/
def medicationNames (meds : List Medication) : String :=
  String.intercalate ", "
    (meds.map (fun med => med.name ++ " (" ++ med.dosage ++ " " ++ med.unit ++ ")"))

/-- The interaction-check prompt template of `checkDrugInteractions`
(literal braces written with hex escapes). -/
def interactionPrompt (meds : List Medication) : String :=
  "You are a pharmaceutical expert. Analyze the following medications for potential drug interactions:\n\n" ++
  "Medications: " ++ medicationNames meds ++ "\n\n" ++
  "Please provide:\n" ++
  "1. A list of any potential interactions between these medications\n" ++
  "2. The severity level of each interaction (none, mild, moderate, or severe)\n" ++
  "3. A brief explanation of each interaction\n" ++
  "4. Recommendations for each interaction\n\n" ++
  "Format your response as JSON with this structure:\n" ++
  "\x7b\n  \"hasInteractions\": boolean,\n  \"interactions\": [\n    \x7b\n" ++
  "      \"medications\": [\"Med1\", \"Med2\"],\n" ++
  "      \"severity\": \"none|mild|moderate|severe\",\n" ++
  "      \"description\": \"Description of the interaction\",\n" ++
  "      \"recommendation\": \"What the patient should do\"\n    \x7d\n  ],\n" ++
  "  \"summary\": \"Brief overall summary\"\n\x7d\n\n" ++
  "Important: This is for educational purposes only. Always recommend consulting a healthcare provider."

/-- Suffix of the character list starting at its first opening brace
(the regex engine's leftmost possible match start for the pattern). -/
def firstBraceSplit : List Char → Option (List Char)
  | [] => none
  | c :: rest => if c = '\x7b' then some (c :: rest) else firstBraceSplit rest

/-- On a REVERSED character list: suffix starting at the first closing
brace, i.e. everything from the last closing brace of the original list
onward (in reverse). -/
def dropUntilCloseRev : List Char → Option (List Char)
  | [] => none
  | c :: rest => if c = '\x7d' then some (c :: rest) else dropUntilCloseRev rest

/-- `response.match(/\x7b[\s\S]*\x7d/)`: the greedy span from the first
opening brace to the last closing brace, or `none` when no such span
exists (no opening brace, or no closing brace after the first opening
one). -/
def jsonSpan (s : String) : Option String :=
  match firstBraceSplit s.toList with
  | none => none
  | some tail =>
    match dropUntilCloseRev tail.reverse with
    | none => none
    | some revSpan => some (String.mk revSpan.reverse)

/-- Result of `checkDrugInteractions` when it does not throw:
`parsed v c m` models the JS spread `{...parsed, checkedAt: c,
medicationsChecked: m}` of a successfully parsed generator JSON `v`;
`plain` models a literally-constructed result object (the too-few-
medications short circuit, with no stamps, or the no-JSON fallback, with
stamps). -/
inductive CheckOutcome (α : Type) where
  | parsed (value : α) (checkedAt : String) (medicationsChecked : List String)
  | plain (hasInteractions : Bool) (interactions : List InteractionRecord)
      (summary : String) (checkedAt : Option String)
      (medicationsChecked : Option (List String))
deriving DecidableEq, Repr

/-- Result of `getMedicationInfo` when it does not throw. -/
inductive InfoOutcome (α : Type) where
  | parsed (value : α)
  | rawInfo (text : String)
deriving DecidableEq, Repr

/-- Result of `getMedicationSuggestions` when it does not throw. -/
inductive SuggestOutcome (α : Type) where
  | parsed (value : α)
  | rawSuggestions (text : String)
deriving DecidableEq, Repr

/-- The response-handling tail of `checkDrugInteractions`: extract the
greedy JSON span; if one exists, `JSON.parse` it — on success return the
parsed object stamped with `checkedAt` and `medicationsChecked`, and on a
parse exception fall into the surrounding catch, which rethrows the fixed
failure message.  Only when NO span exists is the structured fallback
`{hasInteractions:false, interactions:[], summary: response, ...stamps}`
returned. -/
def normalizeInteraction {α : Type} (parse : String → Option α)
    (response nowIso : String) (names : List String) :
    Except String (CheckOutcome α) :=
  match jsonSpan response with
  | some span =>
    match parse span with
    | some v => Except.ok (CheckOutcome.parsed v nowIso names)
    | none => Except.error "Failed to check drug interactions. Please try again."
  | none =>
    Except.ok (CheckOutcome.plain false [] response (some nowIso) (some names))

/-- The response-handling tail of `getMedicationInfo`: parsed JSON on
success, `{rawInfo: response}` when no span exists, and the rethrown
failure message when parsing the span throws. -/
def normalizeInfo {α : Type} (parse : String → Option α) (response : String) :
    Except String (InfoOutcome α) :=
  match jsonSpan response with
  | some span =>
    match parse span with
    | some v => Except.ok (InfoOutcome.parsed v)
    | none => Except.error "Failed to get medication information. Please try again."
  | none => Except.ok (InfoOutcome.rawInfo response)

/-- The response-handling tail of `getMedicationSuggestions`:
`{rawSuggestions: response}` when no span exists, rethrow on a parse
exception. -/
def normalizeSuggestions {α : Type} (parse : String → Option α)
    (response : String) : Except String (SuggestOutcome α) :=
  match jsonSpan response with
  | some span =>
    match parse span with
    | some v => Except.ok (SuggestOutcome.parsed v)
    | none => Except.error "Failed to get suggestions. Please try again."
  | none => Except.ok (SuggestOutcome.rawSuggestions response)

/-- `checkDrugInteractions(medications)`: fewer than two medications short-
circuits to the fixed result without touching the generator; otherwise the
prompt is built, the generator called, and the response normalized.  The
second component counts generator invocations (0 on the short circuit,
1 otherwise); a generator error is rethrown as the fixed failure
message by the surrounding catch. -/
def checkDrugInteractions {α : Type} (gen : String → Except String String)
    (parse : String → Option α) (nowIso : String) (meds : List Medication) :
    Except String (CheckOutcome α) × Nat :=
  if meds.length < 2 then
    (Except.ok (CheckOutcome.plain false []
      "At least two medications are needed to check for interactions."
      none none), 0)
  else
    match gen (interactionPrompt meds) with
    | Except.ok response =>
      (normalizeInteraction parse response nowIso (meds.map Medication.name), 1)
    | Except.error _ =>
      (Except.error "Failed to check drug interactions. Please try again.", 1)

/-- C1: for every medication list of length < 2 — whatever the generator
and parser oracles do — `checkDrugInteractions` performs zero generator
calls and returns exactly
`{hasInteractions:false, interactions:[], summary:"At least two
medications are needed to check for interactions."}` (no stamps). -/
theorem checkDrugInteractionsFewMeds {α : Type}
    (gen : String → Except String String) (parse : String → Option α)
    (nowIso : String) (meds : List Medication) (h : meds.length < 2) :
    checkDrugInteractions gen parse nowIso meds =
      (Except.ok (CheckOutcome.plain false []
        "At least two medications are needed to check for interactions."
        none none), 0) := by
  unfold checkDrugInteractions
  rw [if_pos h]

/-- Witness for C1 at the empty medication list, with a generator oracle
that would fail if it were ever consulted. -/
theorem checkDrugInteractionsFewMedsWitness :
    ([] : List Medication).length < 2 ∧
    checkDrugInteractions (fun _ => Except.error "network down")
        (fun _ => (none : Option String)) "2024-01-01T00:00:00.000Z" [] =
      (Except.ok (CheckOutcome.plain false []
        "At least two medications are needed to check for interactions."
        none none), 0) := by
  exact ⟨by decide, checkDrugInteractionsFewMeds _ _ _ _ (by decide)⟩

/-- C2 (amended): when the generator output contains a greedy brace span
and `JSON.parse` succeeds on it, normalization returns the parsed object
(stamped), ignoring the surrounding prose; when no span exists,
normalization falls back without throwing — to the interaction wrapper
`{hasInteractions:false, interactions:[], summary: rawText}` (stamped),
to `{rawInfo: rawText}` for info lookups and `{rawSuggestions: rawText}`
for suggestion lookups; but when a span exists and parsing it throws, the
functions throw the fixed failure message instead of falling back. -/
theorem normalizeInteractionAmended {α : Type} (parse : String → Option α)
    (resp nowIso : String) (names : List String) :
    (∀ span v, jsonSpan resp = some span → parse span = some v →
      normalizeInteraction parse resp nowIso names =
        Except.ok (CheckOutcome.parsed v nowIso names)) ∧
    (jsonSpan resp = none →
      normalizeInteraction parse resp nowIso names =
        Except.ok (CheckOutcome.plain false [] resp (some nowIso) (some names)) ∧
      normalizeInfo parse resp = Except.ok (InfoOutcome.rawInfo resp) ∧
      normalizeSuggestions parse resp =
        Except.ok (SuggestOutcome.rawSuggestions resp)) ∧
    (∀ span, jsonSpan resp = some span → parse span = none →
      normalizeInteraction parse resp nowIso names =
        Except.error "Failed to check drug interactions. Please try again.") := by
  refine ⟨?_, ?_, ?_⟩
  · intro span v hspan hparse
    simp only [normalizeInteraction, hspan, hparse]
  · intro hnone
    refine ⟨?_, ?_, ?_⟩ <;>
      simp only [normalizeInteraction, normalizeInfo, normalizeSuggestions, hnone]
  · intro span hspan hparse
    simp only [normalizeInteraction, hspan, hparse]

/-- Witness for C2 (amended): a response with prose around the span
"\x7b1\x7d" and a parser succeeding on it yields the stamped parsed
object, and a response with no braces falls back to the wrapper. -/
theorem normalizeInteractionAmendedWitness :
    jsonSpan "prose \x7b1\x7d more prose" = some "\x7b1\x7d" ∧
    normalizeInteraction (fun _ => some "PARSED") "prose \x7b1\x7d more prose"
        "2024-01-01T00:00:00.000Z" ["Aspirin", "Ibuprofen"] =
      Except.ok (CheckOutcome.parsed "PARSED" "2024-01-01T00:00:00.000Z"
        ["Aspirin", "Ibuprofen"]) ∧
    jsonSpan "plain prose only" = none ∧
    normalizeInfo (fun _ => some "PARSED") "plain prose only" =
      Except.ok (InfoOutcome.rawInfo "plain prose only") := by
  refine ⟨by decide, ?_, by decide, ?_⟩
  · exact (normalizeInteractionAmended (fun _ => some "PARSED")
      "prose \x7b1\x7d more prose" "2024-01-01T00:00:00.000Z"
      ["Aspirin", "Ibuprofen"]).1 "\x7b1\x7d" "PARSED" (by decide) rfl
  · exact ((normalizeInteractionAmended (fun _ => some "PARSED")
      "plain prose only" "2024-01-01T00:00:00.000Z"
      ["Aspirin", "Ibuprofen"]).2.1 (by decide)).2.1

/-- Counterexample for C2 as stated: the text "\x7boops\x7d" contains a
brace span on which `JSON.parse` throws (modelled by the oracle returning
`none`); normalization then propagates the rethrown failure error instead
of returning the claimed wrapper — so "parsing throws implies fallback
without throwing" is false on the code. -/
theorem normalizeInteractionThrowsOnBadJson :
    normalizeInteraction (fun _ => (none : Option String)) "\x7boops\x7d"
        "2024-01-01T00:00:00.000Z" [] =
      Except.error "Failed to check drug interactions. Please try again." ∧
    jsonSpan "\x7boops\x7d" = some "\x7boops\x7d" ∧
    normalizeInteraction (fun _ => (none : Option String)) "\x7boops\x7d"
        "2024-01-01T00:00:00.000Z" [] ≠
      Except.ok (CheckOutcome.plain false [] "\x7boops\x7d"
        (some "2024-01-01T00:00:00.000Z") (some [])) := by
  have h1 : normalizeInteraction (fun _ => (none : Option String)) "\x7boops\x7d"
      "2024-01-01T00:00:00.000Z" [] =
      Except.error "Failed to check drug interactions. Please try again." := rfl
  refine ⟨h1, by decide, ?_⟩
  rw [h1]
  intro hcontra
  exact Except.noConfusion hcontra

/-- A stored interaction-history entry: the spread
`{...interaction, id: Date.now().toString(), checkedAt: toISOString()}`.
The interaction payload itself is opaque to the history store and is
carried as a single field. -/
structure HistEntry where
  payload : String
  id : String
  checkedAt : String
deriving DecidableEq, Repr

/-- One record operation's inputs: the `Date.now()` value, the ISO
timestamp and the interaction payload. -/
def stampEntry (op : Nat × String × String) : HistEntry :=
  { payload := op.2.2, id := toString op.1, checkedAt := op.2.1 }

/-- `saveInteractionHistory(interaction)` from `storage.js`: builds the
stamped entry, prepends it to the stored list, truncates to the 50 most
recent and persists; returns the new entry.  Result: (returned entry,
stored list afterwards). -/
def saveInteractionHistory (op : Nat × String × String)
    (history : List HistEntry) : HistEntry × List HistEntry :=
  let e := stampEntry op
  (e, (e :: history).take 50)

/-- `getInteractionHistory()` from `storage.js`: returns the persisted
list (or the empty default) unchanged. -/
def getInteractionHistory (stored : List HistEntry) : List HistEntry :=
  stored

/-- Sequential composition of record operations against the store. -/
def runRecords : List (Nat × String × String) → List HistEntry →
    List HistEntry
  | [], h => h
  | op :: rest, h => runRecords rest (saveInteractionHistory op h).2

/-- Truncating the appended list before an outer truncation of the same
size changes nothing. -/
theorem take_append_take {α : Type} (A B : List α) (n : Nat) :
    (A ++ B.take n).take n = (A ++ B).take n := by
  rw [List.take_append_eq_append_take, List.take_append_eq_append_take,
    List.take_take, Nat.min_eq_left (Nat.sub_le n A.length)]

/-- Closed form of a run of record operations: the stamped operations in
reverse-chronological order ahead of the initial store, truncated to 50. -/
theorem runRecordsEq (ops : List (Nat × String × String))
    (h : List HistEntry) (hlen : h.length ≤ 50) :
    runRecords ops h = ((ops.map stampEntry).reverse ++ h).take 50 := by
  induction ops generalizing h with
  | nil => simp [runRecords, List.take_of_length_le hlen]
  | cons op rest ih =>
    have step : runRecords (op :: rest) h =
        runRecords rest ((stampEntry op :: h).take 50) := rfl
    rw [step, ih _ (List.length_take_le 50 _)]
    rw [take_append_take, List.map_cons, List.reverse_cons,
      List.append_assoc, List.singleton_append]

/-- C4: starting from an empty store, a run of 51 record operations with
pairwise-distinct id stamps leaves `list()` with exactly 50 entries,
equal to the 50 most recent stamped entries newest-first, which is the
full run minus the first (oldest) record — whose entry is absent. -/
theorem interactionHistoryCapFifty (op₀ : Nat × String × String)
    (rest : List (Nat × String × String))
    (hlen : rest.length = 50)
    (hids : (((op₀ :: rest).map (fun op => toString op.1)).Nodup)) :
    (getInteractionHistory (runRecords (op₀ :: rest) [])).length = 50 ∧
    getInteractionHistory (runRecords (op₀ :: rest) []) =
      (((op₀ :: rest).map stampEntry).reverse).take 50 ∧
    getInteractionHistory (runRecords (op₀ :: rest) []) =
      (rest.map stampEntry).reverse ∧
    stampEntry op₀ ∉ getInteractionHistory (runRecords (op₀ :: rest) []) := by
  have hrun : runRecords (op₀ :: rest) [] =
      (((op₀ :: rest).map stampEntry).reverse ++ []).take 50 :=
    runRecordsEq _ _ (by simp)
  rw [List.append_nil] at hrun
  have hsplit : ((op₀ :: rest).map stampEntry).reverse =
      (rest.map stampEntry).reverse ++ [stampEntry op₀] := by
    rw [List.map_cons, List.reverse_cons]
  have hlen' : ((rest.map stampEntry).reverse).length = 50 := by
    simp [hlen]
  have hfinal : runRecords (op₀ :: rest) [] = (rest.map stampEntry).reverse := by
    rw [hrun, hsplit, List.take_left' hlen']
  refine ⟨?_, ?_, ?_, ?_⟩
  · show (runRecords (op₀ :: rest) []).length = 50
    rw [hfinal, hlen']
  · exact hrun
  · exact hfinal
  · show stampEntry op₀ ∉ runRecords (op₀ :: rest) []
    rw [hfinal]
    intro hmem
    rw [List.mem_reverse] at hmem
    obtain ⟨op, hop, heq⟩ := List.mem_map.mp hmem
    have hid : toString op.1 = toString op₀.1 := congrArg HistEntry.id heq
    have hhd : toString op₀.1 ∉ rest.map (fun op => toString op.1) := by
      rw [List.map_cons, List.nodup_cons] at hids
      exact hids.1
    exact hhd (by rw [← hid]; exact List.mem_map_of_mem _ hop)

/-- First (oldest) record operation of the concrete C4 witness run. -/
def c4FirstOp : Nat × String × String :=
  (0, "2024-01-01T00:00:00.000Z", "interaction payload")

/-- The 50 later record operations of the concrete C4 witness run, with
distinct millisecond stamps 1..50. -/
def c4RestOps : List (Nat × String × String) :=
  (List.range 50).map (fun i => (i + 1, "2024-01-01T00:00:00.000Z", "interaction payload"))

/-- Witness for C4: a concrete 51-operation run with distinct id stamps;
afterwards the store holds 50 entries and the first record's entry is
gone. -/
theorem interactionHistoryCapFiftyWitness :
    c4RestOps.length = 50 ∧
    (((c4FirstOp :: c4RestOps).map (fun op => toString op.1)).Nodup) ∧
    (getInteractionHistory (runRecords (c4FirstOp :: c4RestOps) [])).length = 50 ∧
    stampEntry c4FirstOp ∉
      getInteractionHistory (runRecords (c4FirstOp :: c4RestOps) []) := by
  have h := interactionHistoryCapFifty c4FirstOp c4RestOps (by decide) (by decide)
  exact ⟨by decide, by decide, h.1, h.2.2.2⟩
